import Mathlib

/-!
Verification development for the news-aggregator repository.

The Python sources (scraper.py, app.py) are shallowly embedded below.
Pure Python functions become Lean functions over String / List Char;
machine-level effects (HTTP fetches, XML parsing outcomes, the article
cache) become explicit data passed to the embedded functions.  All
definitions are executable.
-/

namespace NewsAgg

/-! ## Python string primitives -/

/-- Model of Python str.lower restricted to the alphabets this repository
uses: ASCII letters plus the Swedish letters appearing in the keyword data. -/
def pyLowerChar (c : Char) : Char :=
  if 'A' ≤ c ∧ c ≤ 'Z' then Char.ofNat (c.toNat + 32)
  else if c = 'Å' then 'å'
  else if c = 'Ä' then 'ä'
  else if c = 'Ö' then 'ö'
  else if c = 'É' then 'é'
  else c

/-- Python str.lower over a whole string. -/
def pyLower (s : String) : String := ⟨s.data.map pyLowerChar⟩

/-- Model of the regex word-character class (ASCII letters, digits,
underscore, plus the Swedish letters appearing in the repository data). -/
def isWordChar (c : Char) : Bool :=
  (decide ('a' ≤ c) && decide (c ≤ 'z')) ||
  (decide ('A' ≤ c) && decide (c ≤ 'Z')) ||
  (decide ('0' ≤ c) && decide (c ≤ '9')) ||
  c == '_' || c == 'å' || c == 'ä' || c == 'ö' ||
  c == 'Å' || c == 'Ä' || c == 'Ö' || c == 'é' || c == 'É'

/-- Word-character test on an optional character; positions outside the
text count as non-word. -/
def wordOpt : Option Char → Bool
  | none => false
  | some c => isWordChar c

/-- Characters stripped by Python str.strip with no argument. -/
def isPySpace (c : Char) : Bool :=
  c == ' ' || c == '\t' || c == '\n' || c == '\r' || c == '\x0b' || c == '\x0c'

/-- Python str.strip on a character list. -/
def pyStripList (l : List Char) : List Char :=
  ((l.dropWhile isPySpace).reverse.dropWhile isPySpace).reverse

/-- Python str.strip. -/
def pyStrip (s : String) : String := ⟨pyStripList s.data⟩

/-- Search loop for a regex of the shape word-boundary followed by a
literal keyword, as built in match_keywords and detect_swedish_reference.
The argument prev carries the character just before the current position;
a word boundary holds where the word-character status flips. -/
def boundarySearch : Option Char → List Char → List Char → Bool
  | prev, [], kw => wordOpt prev && kw.isEmpty
  | prev, c :: rest, kw =>
    ((wordOpt prev != isWordChar c) && kw.isPrefixOf (c :: rest)) ||
      boundarySearch (some c) rest kw

/-- Model of re.search of a word-boundary-anchored escaped literal in a text. -/
def reSearchBoundary (t kw : List Char) : Bool := boundarySearch none t kw

/-- Embedding of scraper.match_keywords: the text is lowered once, each
keyword is lowered and searched for anchored at a word-start boundary with
a free suffix; the fold short-circuits on the first hit. -/
def match_keywords (text : String) (keywords : List String) : Bool :=
  keywords.any fun keyword =>
    reSearchBoundary (pyLower text).data (pyLower keyword).data

/-- The hardcoded Swedish-indicator list of detect_swedish_reference,
transcribed verbatim from scraper.py. -/
def swedish_keywords : List String :=
  ["sweden", "sverige", "swedish",
   "stockholm", "göteborg", "gothenburg", "malmö", "malmo", "uppsala", "västerås", "vasteras",
   "örebro", "orebro", "linköping", "linkoping", "helsingborg", "jönköping", "jonkoping",
   "norrköping", "norrkoping", "lund", "umeå", "umea", "gävle", "gavle", "borås", "boras",
   ".se",
   "volvo", "ericsson", "ikea", "h&m", "spotify", "klarna", "skanska", "sca", "astrazeneca",
   "nordea", "seb bank", "swedbank", "handelsbanken", "telia", "telenor", "scania",
   "swedish government", "regeringen", "försvarsmakten", "forsvaret", "polisen",
   "msb", "cert-se", "säpo", "sapo", "försäkringskassan", "forsakringskassan",
   "skatteverket", "arbetsförmedlingen", "arbetsformedlingen"]

/-- Embedding of scraper.detect_swedish_reference. -/
def detect_swedish_reference (text : String) : Bool :=
  swedish_keywords.any fun keyword =>
    reSearchBoundary (pyLower text).data (pyLower keyword).data

/-- Part before the last space of the list, as produced by the Python
idiom rsplit at a single space taking the first part; a list without a
space is returned whole. -/
def cutLastSpace (l : List Char) : List Char :=
  if l.contains ' ' then ((l.reverse.dropWhile (fun c => !(c == ' '))).drop 1).reverse
  else l

/-- Truncation idiom used for summaries and descriptions: take the first
n characters, break at the last space, append an ellipsis marker. -/
def pyTruncate (l : List Char) (n : Nat) : List Char :=
  cutLastSpace (l.take n) ++ "...".data

/-- Embedding of scraper.generate_summary (the fixed character budget is
passed explicitly; the source default is 150). -/
def generate_summary (text : String) (max_length : Nat) : String :=
  let t := pyStrip text
  if t.data.length ≤ max_length then t
  else ⟨pyTruncate t.data max_length⟩

/-! ## Timestamp normalization (scraper.parse_timestamp)

The Python code delegates parsing to the third-party dateutil library and
then strips any timezone info.  dateutil is not part of this repository;
it is modelled below restricted to the ISO-8601 and RFC-822 shapes the
repository's feeds and tests exercise, with every other input treated as
unparsable.  The wall-clock fields are kept and the offset discarded,
matching the tzinfo stripping in parse_timestamp. -/

/-- Naive Python datetime value (timezone already stripped). -/
structure PyDateTime where
  year : Nat
  month : Nat
  day : Nat
  hour : Nat
  minute : Nat
  second : Nat
deriving DecidableEq

/-- Embedding of datetime.min, the sentinel for unparsable timestamps. -/
def datetime_min : PyDateTime := ⟨1, 1, 1, 0, 0, 0⟩

/-- Order-embedding of a datetime into Nat; the bases strictly dominate
the ranges datetime admits for each field, so comparison of keys is the
lexicographic comparison of the fields. -/
def dtKey (d : PyDateTime) : Nat :=
  ((((d.year * 13 + d.month) * 32 + d.day) * 24 + d.hour) * 60 + d.minute) * 60 + d.second

def isDigitCh (c : Char) : Bool := decide ('0' ≤ c) && decide (c ≤ '9')

def digVal (c : Char) : Nat := c.toNat - '0'.toNat

/-- Read exactly n decimal digits, returning the value and the rest. -/
def readDigits : Nat → Nat → List Char → Option (Nat × List Char)
  | 0, acc, l => some (acc, l)
  | n + 1, acc, c :: l => if isDigitCh c then readDigits n (acc * 10 + digVal c) l else none
  | _ + 1, _, [] => none

/-- Consume an expected literal. -/
def readLit (s : String) (l : List Char) : Option (List Char) :=
  if s.data.isPrefixOf l then some (l.drop s.data.length) else none

/-- Accept an ISO-8601 timezone suffix (already consumed text precedes):
empty, Z, or a signed offset. -/
def tzSuffixOk (l : List Char) : Bool :=
  match l with
  | [] => true
  | ['Z'] => true
  | c :: rest =>
    (c == '+' || c == '-') &&
      (match readDigits 2 0 rest with
       | some (_, []) => true
       | some (_, ':' :: r2) =>
         (match readDigits 2 0 r2 with
          | some (_, []) => true
          | _ => false)
       | some (_, r2) =>
         (match readDigits 2 0 r2 with
          | some (_, []) => true
          | _ => false)
       | none => false)

/-- Raw field parser for ISO-8601 date-times. -/
def parseISOFields (l : List Char) : Option (Nat × Nat × Nat × Nat × Nat × Nat) := do
  let (y, l) ← readDigits 4 0 l
  let l ← readLit "-" l
  let (mo, l) ← readDigits 2 0 l
  let l ← readLit "-" l
  let (d, l) ← readDigits 2 0 l
  let l ← match readLit "T" l with
          | some r => some r
          | none => readLit " " l
  let (h, l) ← readDigits 2 0 l
  let l ← readLit ":" l
  let (mi, l) ← readDigits 2 0 l
  let l ← readLit ":" l
  let (s, l) ← readDigits 2 0 l
  if tzSuffixOk l then some (y, mo, d, h, mi, s) else none

/-- Consume an RFC-822 weekday marker such as Mon followed by a comma. -/
def dropWeekday (l : List Char) : Option (List Char) :=
  ["Mon, ", "Tue, ", "Wed, ", "Thu, ", "Fri, ", "Sat, ", "Sun, "].firstM
    fun p => readLit p l

/-- Read a one- or two-digit day followed by a space. -/
def readDay : List Char → Option (Nat × List Char)
  | c1 :: c2 :: r =>
    if isDigitCh c1 && isDigitCh c2 then
      match r with
      | ' ' :: r2 => some (digVal c1 * 10 + digVal c2, r2)
      | _ => none
    else if isDigitCh c1 && c2 == ' ' then some (digVal c1, r)
    else none
  | _ => none

def monthNames : List (String × Nat) :=
  [("Jan ", 1), ("Feb ", 2), ("Mar ", 3), ("Apr ", 4), ("May ", 5), ("Jun ", 6),
   ("Jul ", 7), ("Aug ", 8), ("Sep ", 9), ("Oct ", 10), ("Nov ", 11), ("Dec ", 12)]

/-- Read a three-letter month name followed by a space. -/
def readMonth (l : List Char) : Option (Nat × List Char) :=
  monthNames.firstM fun p => (readLit p.1 l).map fun r => (p.2, r)

/-- Accept an RFC-822 timezone name or numeric offset. -/
def tzNameOk (l : List Char) : Bool :=
  l == "GMT".data || l == "UTC".data || l == "UT".data || l == "Z".data ||
    (match l with
     | c :: r =>
       (c == '+' || c == '-') &&
         (match readDigits 4 0 r with
          | some (_, []) => true
          | _ => false)
     | [] => false)

/-- Raw field parser for RFC-822 date-times such as
Mon, 27 Nov 2025 10:30:00 GMT. -/
def parseRFCFields (l : List Char) : Option (Nat × Nat × Nat × Nat × Nat × Nat) := do
  let l ← dropWeekday l
  let (d, l) ← readDay l
  let (mo, l) ← readMonth l
  let (y, l) ← readDigits 4 0 l
  let l ← readLit " " l
  let (h, l) ← readDigits 2 0 l
  let l ← readLit ":" l
  let (mi, l) ← readDigits 2 0 l
  let l ← readLit ":" l
  let (s, l) ← readDigits 2 0 l
  match l with
  | [] => some (y, mo, d, h, mi, s)
  | ' ' :: tz => if tzNameOk tz then some (y, mo, d, h, mi, s) else none
  | _ => none

/-- Raw fields of a parsed date-time, trying ISO first then RFC-822. -/
def dateutilFields (s : String) : Option (Nat × Nat × Nat × Nat × Nat × Nat) :=
  match parseISOFields s.data with
  | some t => some t
  | none => parseRFCFields s.data

/-- Range validation as enforced by the datetime constructor; out-of-range
fields make dateutil raise, which parse_timestamp maps to the sentinel. -/
def mkDateTime (y mo d h mi s : Nat) : Option PyDateTime :=
  if 1 ≤ y ∧ y ≤ 9999 ∧ 1 ≤ mo ∧ mo ≤ 12 ∧ 1 ≤ d ∧ d ≤ 31 ∧ h ≤ 23 ∧ mi ≤ 59 ∧ s ≤ 59
  then some ⟨y, mo, d, h, mi, s⟩ else none

/-- Model of dateutil.parser.parse followed by tzinfo stripping (see the
section comment for the modelled input shapes). -/
def dateutilParse (s : String) : Option PyDateTime :=
  match dateutilFields s with
  | none => none
  | some (y, mo, d, h, mi, sec) => mkDateTime y mo d h mi sec

/-- Embedding of scraper.parse_timestamp.  The Python parameter is a
string or None; None and the empty string are falsy and give the sentinel,
and any parse failure is caught and also gives the sentinel.  The function
is total: it never raises. -/
def parse_timestamp (timestamp_str : Option String) : PyDateTime :=
  match timestamp_str with
  | none => datetime_min
  | some s => if s = "" then datetime_min else (dateutilParse s).getD datetime_min

/-! ## Source fetchers (scraper.scrape_rss_feed and scraper.scrape_site)

The HTTP fetch and the XML/HTML parse are effectful; they are modelled by
a FetchResult value: ok carries the parsed item list (RSS and Atom item
elements, or the elements selected by the article-container selector),
failed models any exception caught by the outer try of the fetcher. -/

inductive FetchResult (α : Type) where
  | ok (items : List α)
  | failed
deriving DecidableEq

/-- One child element of an RSS item or Atom entry, as seen by the
extraction code: its (namespaced) tag, its direct text content, the
concatenation of all its descendant text, and its href attribute. -/
structure RssChild where
  tag : String
  text : Option String
  itext : String
  href : Option String
deriving DecidableEq

/-- An RSS item or Atom entry is visited as the list of its children. -/
abbrev RssItem := List RssChild

/-- Site-level configuration fields consumed by both fetchers. -/
structure SiteMeta where
  name : String
  url : String
  category : Option String
deriving DecidableEq

/-- The category defaulting of site_config.get. -/
def site_category (m : SiteMeta) : String := m.category.getD "international"

/-- Title extraction: first child tagged title in the plain or Atom
namespace, all descendant text joined and stripped. -/
def rss_title (item : RssItem) : Option String :=
  (item.find? fun c => c.tag == "title" || c.tag == "{http://www.w3.org/2005/Atom}title").map
    fun c => pyStrip c.itext

/-- Link extraction: first child tagged link; its direct text if truthy,
otherwise its href attribute defaulted to the empty string, stripped. -/
def rss_link (item : RssItem) : Option String :=
  (item.find? fun c => c.tag == "link" || c.tag == "{http://www.w3.org/2005/Atom}link").map
    fun c =>
      match c.text with
      | some t => if t = "" then pyStrip (c.href.getD "") else pyStrip t
      | none => pyStrip (c.href.getD "")

def descriptionTags : List String :=
  ["description",
   "{http://purl.org/rss/1.0/modules/content/}encoded",
   "{http://www.w3.org/2005/Atom}summary",
   "{http://www.w3.org/2005/Atom}content"]

/-- Tag-skipping text extraction; approximate model of parsing the string
with BeautifulSoup and taking get_text(strip=True).  No claim depends on
its exact output. -/
def dropTagsAux : Bool → List Char → List Char
  | _, [] => []
  | true, c :: r => if c == '>' then dropTagsAux false r else dropTagsAux true r
  | false, c :: r => if c == '<' then dropTagsAux true r else c :: dropTagsAux false r

def stripHtmlText (s : String) : String := pyStrip ⟨dropTagsAux false s.data⟩

/-- Description extraction: the first child with one of the candidate
tags decides; non-empty text is HTML-stripped when it looks like markup
and truncated to 300 characters at the last space with an ellipsis. -/
def rss_description (item : RssItem) : Option String :=
  match item.find? fun c => descriptionTags.contains c.tag with
  | none => none
  | some c =>
    let dt := c.itext
    if dt ≠ "" ∧ pyStrip dt ≠ "" then
      let d0 := if dt.data.contains '<' && dt.data.contains '>' then stripHtmlText dt
                else pyStrip dt
      some (if 300 < d0.data.length then ⟨pyTruncate d0.data 300⟩ else d0)
    else none

def timestampTags : List String :=
  ["pubDate",
   "{http://purl.org/dc/elements/1.1/}date",
   "{http://www.w3.org/2005/Atom}published",
   "{http://www.w3.org/2005/Atom}updated"]

/-- Timestamp extraction: first child with a candidate date tag, all
descendant text joined and stripped; absent when no such child exists. -/
def rss_timestamp (item : RssItem) : Option String :=
  (item.find? fun c => timestampTags.contains c.tag).map fun c => pyStrip c.itext

/-- The uniform article record built by the fetchers: the Python dict with
the keys set in scraper.py.  ingress is an Option because the HTML variant
leaves the key absent; is_apt and is_swedish_reference do not exist yet at
this stage. -/
structure RawArticle where
  title : String
  link : String
  origin : String
  origin_url : String
  timestamp : Option String
  category : String
  ingress : Option String
  ingress_selector : String
deriving DecidableEq

/-- Per-item record construction of scrape_rss_feed; the truthiness check
on title and link discards items lacking a non-empty value for either. -/
def rss_item_record (m : SiteMeta) (item : RssItem) : Option RawArticle :=
  match rss_title item, rss_link item with
  | some t, some l =>
    if t ≠ "" ∧ l ≠ "" then
      some { title := t, link := l, origin := m.name, origin_url := m.url,
             timestamp := rss_timestamp item, category := site_category m,
             ingress := some ((rss_description item).getD ""), ingress_selector := "" }
    else none
  | _, _ => none

/-- Embedding of scraper.scrape_rss_feed: on a fetch or whole-feed parse
failure the caught exception yields the empty list; otherwise the first
50 items in document order are visited and per-item extraction failures
drop only that item. -/
def scrape_rss_feed (m : SiteMeta) (fetch : FetchResult RssItem) : List RawArticle :=
  match fetch with
  | .failed => []
  | .ok items => (items.take 50).filterMap (rss_item_record m)

/-- An element matched by a per-container selector: its stripped text,
href attribute and datetime attribute. -/
structure HtmlElem where
  text : String
  href : Option String
  datetimeAttr : Option String
deriving DecidableEq

/-- One article container selected from the HTML page, as seen through
the per-container title, link and timestamp selectors. -/
structure HtmlItem where
  titleElem : Option HtmlElem
  linkElem : Option HtmlElem
  timestampElem : Option HtmlElem
deriving DecidableEq

/-- The selector-set fields of the configuration that affect extraction:
whether a timestamp selector is configured, and the ingress selector
defaulted to the empty string. -/
structure HtmlSelectors where
  hasTimestamp : Bool
  ingress : String
deriving DecidableEq

/-- Simplified model of urllib.parse.urljoin; it is only reached for
non-empty relative links and no claim depends on its exact output. -/
def urljoin (base rel : String) : String := base ++ "/" ++ rel

/-- Per-container record construction of scrape_site: only the presence
of the title and link elements is checked; the title text and the href
value may be empty.  A relative link is made absolute. -/
def html_item_record (m : SiteMeta) (sel : HtmlSelectors) (it : HtmlItem) :
    Option RawArticle :=
  match it.titleElem, it.linkElem with
  | some te, some le =>
    let title := te.text
    let link0 := le.href.getD ""
    let link := if link0 ≠ "" ∧ ¬ link0.startsWith "http" then urljoin m.url link0 else link0
    let timestamp : Option String :=
      if sel.hasTimestamp then
        match it.timestampElem with
        | some tse =>
          some (match tse.datetimeAttr with
                | some dtv => if dtv = "" then tse.text else dtv
                | none => tse.text)
        | none => none
      else none
    some { title := title, link := link, origin := m.name, origin_url := m.url,
           timestamp := timestamp, category := site_category m,
           ingress := none, ingress_selector := sel.ingress }
  | _, _ => none

/-- The HTML branch of scraper.scrape_site, with the same containment and
50-item cap as the RSS variant. -/
def scrape_html_site (m : SiteMeta) (sel : HtmlSelectors) (fetch : FetchResult HtmlItem) :
    List RawArticle :=
  match fetch with
  | .failed => []
  | .ok items => (items.take 50).filterMap (html_item_record m sel)

/-- Fetch mode of a configured site: the truthy rss_url check in
scrape_site dispatches to the RSS variant, otherwise the HTML variant
with its selector set. -/
inductive SiteFetch where
  | rss (fetch : FetchResult RssItem)
  | html (sel : HtmlSelectors) (fetch : FetchResult HtmlItem)
deriving DecidableEq

structure Site where
  meta : SiteMeta
  mode : SiteFetch
deriving DecidableEq

/-- Embedding of scraper.scrape_site (both variants). -/
def scrape_site (s : Site) : List RawArticle :=
  match s.mode with
  | .rss f => scrape_rss_feed s.meta f
  | .html sel f => scrape_html_site s.meta sel f

/-! ## Aggregation pipeline (scraper.scrape_all_sites)

The network call fetch_article_ingress made during deferred enrichment is
modelled by an explicit function argument fetchIngress mapping a link and
an ingress selector to the fetched text; the Python function returns the
empty string on any failure, so an arbitrary total function covers every
behaviour. -/

/-- The processed article dict as it enters the final sorted list.  The
is_apt and is_swedish_reference keys are set only on a classification
match; none models the key being absent from the dict. -/
structure Article where
  title : String
  link : String
  origin : String
  origin_url : String
  timestamp : Option String
  category : String
  ingress : String
  ingress_selector : String
  summary : String
  is_apt : Option Bool
  is_swedish_reference : Option Bool
deriving DecidableEq

/-- The per-record body of the filtering loop in scrape_all_sites:
keyword filtering over title plus ingress, deferred ingress enrichment,
summary derivation, APT and Swedish-reference classification.  Returns
none exactly when the record is discarded by the keyword filter. -/
def classify_article (fetchIngress : String → String → String)
    (keywords apt_keywords : List String) (a : RawArticle) : Option Article :=
  let ing0 := a.ingress.getD ""
  if match_keywords (a.title ++ " " ++ ing0) keywords then
    let ing :=
      if ing0 = "" then
        if a.ingress_selector ≠ "" ∧ a.link ≠ "" then fetchIngress a.link a.ingress_selector
        else ""
      else ing0
    let summ := if ing ≠ "" then ing else generate_summary a.title 150
    some { title := a.title, link := a.link, origin := a.origin,
           origin_url := a.origin_url, timestamp := a.timestamp,
           category := a.category, ingress := ing,
           ingress_selector := a.ingress_selector, summary := summ,
           is_apt :=
             if match_keywords (pyLower (a.title ++ " " ++ ing)) apt_keywords then some true
             else none,
           is_swedish_reference :=
             if detect_swedish_reference (a.title ++ " " ++ ing) then some true
             else none }
  else none

/-- Sort key of the final sort: the normalized timestamp. -/
def article_sort_key (a : Article) : Nat := dtKey (parse_timestamp a.timestamp)

/-- Comparison of the final sort: list.sort with key parse_timestamp and
reverse true orders by descending normalized timestamp, keeping the
pre-sort order of equal keys (Python sorts are stable). -/
def newest_first (a b : Article) : Bool :=
  decide (article_sort_key b ≤ article_sort_key a)

/-- The working list just before the final sort: all sites fetched in
configuration order, concatenated, filtered and classified in place. -/
def pre_sort_list (fetchIngress : String → String → String)
    (keywords apt_keywords : List String) (sites : List Site) : List Article :=
  ((sites.map scrape_site).flatten).filterMap
    (classify_article fetchIngress keywords apt_keywords)

/-- Embedding of scraper.scrape_all_sites.  List.mergeSort is a stable
sort, hence produces the same list as the stable Python sort with the
same total preorder. -/
def scrape_all_sites (fetchIngress : String → String → String)
    (keywords apt_keywords : List String) (sites : List Site) : List Article :=
  (pre_sort_list fetchIngress keywords apt_keywords sites).mergeSort newest_first

/-! ## Refresh cache (app.refresh)

The module-level cache of app.py is the pair of articles_cache and
last_update, updated together while the lock is held; the lock-protected
double assignment is modelled as one simultaneous record update.  The
scrape_all_sites() call inside the try is modelled by an Except value:
ok carries the pipeline result, error the message of a raised exception. -/

structure CacheState where
  articles_cache : List Article
  last_update : Option Nat
deriving DecidableEq

/-- The JSON payload returned by the refresh route: a success status with
a count, or an error status with the exception message (HTTP 500). -/
inductive RefreshOutcome where
  | success (count : Nat)
  | error (message : String)
deriving DecidableEq

/-- Embedding of app.refresh: on success install the new list and the new
last_update together; on an exception return the structured error payload
and leave the cache state untouched. -/
def refresh (run : Except String (List Article)) (now : Nat) (st : CacheState) :
    CacheState × RefreshOutcome :=
  match run with
  | .ok new_articles =>
    ({ articles_cache := new_articles, last_update := some now },
     .success new_articles.length)
  | .error e => (st, .error e)

/-! ## Highlighter (app.highlight_keywords)

The regex substitution pass of one keyword scans the working text left to
right for case-insensitive matches of the keyword anchored at a word-start
boundary and extended by a greedy run of word characters (the capture
group); every match is replaced by a numbered placeholder token, and the
placeholder-to-markup mapping is recorded in insertion order.  Scanning
resumes after the end of each match, with the boundary test against the
last matched character, exactly as re.sub behaves.  The scans below carry
an explicit fuel equal to the text length, which each step strictly
consumes, so they are plain structural recursions. -/

/-- Case-insensitive prefix test, modelling the IGNORECASE flag. -/
def ciPrefixOf : List Char → List Char → Bool
  | [], _ => true
  | _ :: _, [] => false
  | k :: ks, c :: cs => (pyLowerChar k == pyLowerChar c) && ciPrefixOf ks cs

/-- Greedy run of word characters and the remaining text. -/
def takeWordRun : List Char → List Char × List Char
  | [] => ([], [])
  | c :: r =>
    if isWordChar c then
      let p := takeWordRun r
      (c :: p.1, p.2)
    else ([], c :: r)

/-- The placeholder token for match number n, delimited by NUL bytes. -/
def placeholder_chars (n : Nat) : List Char :=
  '\x00' :: ("HIGHLIGHT_".data ++ (Nat.repr n).data ++ ['\x00'])

/-- The marked-span markup recorded for a matched group. -/
def markHtml (m : List Char) : List Char :=
  "<mark class=\"highlight\">".data ++ m ++ "</mark>".data

/-- One substitution pass for a non-empty keyword: returns the rewritten
text, the next placeholder number, and the recorded replacements in
insertion order. -/
def subScanFuel (k : Char) (ks : List Char) :
    Nat → Option Char → List Char → Nat →
    List Char × Nat × List (List Char × List Char)
  | 0, _, t, ctr => (t, ctr, [])
  | fuel + 1, prev, t, ctr =>
    match t with
    | [] => ([], ctr, [])
    | c :: rest =>
      if (wordOpt prev != isWordChar c) && ciPrefixOf (k :: ks) (c :: rest) then
        let kwlen := ks.length + 1
        let m := (c :: rest).take kwlen ++ (takeWordRun ((c :: rest).drop kwlen)).1
        let after := (takeWordRun ((c :: rest).drop kwlen)).2
        let ph := placeholder_chars ctr
        let next := subScanFuel k ks fuel m.getLast? after (ctr + 1)
        (ph ++ next.1, next.2.1, (ph, markHtml m) :: next.2.2)
      else
        let next := subScanFuel k ks fuel (some c) rest ctr
        (c :: next.1, next.2.1, next.2.2)

/-- One keyword pass of the substitution loop.  The keyword provider
never yields an empty keyword; for completeness the empty keyword is
modelled as a pass with no effect. -/
def sub_pass (kw : List Char) (t : List Char) (ctr : Nat) :
    List Char × Nat × List (List Char × List Char) :=
  match kw with
  | [] => (t, ctr, [])
  | k :: ks => subScanFuel k ks t.length none t ctr

/-- Left-to-right non-overlapping replacement, modelling str.replace for
the non-empty placeholder patterns it is applied to. -/
def replaceAllFuel : Nat → List Char → List Char → List Char → List Char
  | 0, t, _, _ => t
  | fuel + 1, t, pat, rep =>
    match t with
    | [] => []
    | c :: r =>
      if pat ≠ [] ∧ pat.isPrefixOf (c :: r) then
        rep ++ replaceAllFuel fuel ((c :: r).drop pat.length) pat rep
      else c :: replaceAllFuel fuel r pat rep

def replace_all (t pat rep : List Char) : List Char :=
  replaceAllFuel t.length t pat rep

/-- Stable insertion of a keyword into a list already sorted by
descending length: the new element goes after all elements of greater or
equal length. -/
def insertKwDesc (x : String) : List String → List String
  | [] => [x]
  | y :: ys => if x.length ≤ y.length then y :: insertKwDesc x ys else x :: y :: ys

/-- Stable sort of the keywords by descending length, as produced by the
Python sorted call with key len and reverse true (stable sorts with the
same total preorder agree). -/
def sortByLengthDesc (keywords : List String) : List String :=
  keywords.foldl (fun acc k => insertKwDesc k acc) []

/-- Embedding of app.highlight_keywords: empty text returns unchanged;
keywords are processed longest first, each pass substituting placeholders
into the working text; finally every recorded placeholder is replaced by
its marked-span markup, in insertion order. -/
def highlight_keywords (text : String) (keywords : List String) : String :=
  if text = "" then text
  else
    let sorted_keywords := sortByLengthDesc keywords
    let step :=
      sorted_keywords.foldl
        (fun (acc : List Char × Nat × List (List Char × List Char)) kw =>
          let r := sub_pass kw.data acc.1 acc.2.1
          (r.1, r.2.1, acc.2.2 ++ r.2.2))
        (text.data, 0, [])
    ⟨step.2.2.foldl (fun t pr => replace_all t pr.1 pr.2) step.1⟩

/-! ## Helper lemmas -/

theorem mkDateTime_eq_some {y mo d h mi s : Nat} {dt : PyDateTime}
    (hk : mkDateTime y mo d h mi s = some dt) :
    dt = ⟨y, mo, d, h, mi, s⟩ ∧
      1 ≤ y ∧ y ≤ 9999 ∧ 1 ≤ mo ∧ mo ≤ 12 ∧ 1 ≤ d ∧ d ≤ 31 ∧
      h ≤ 23 ∧ mi ≤ 59 ∧ s ≤ 59 := by
  unfold mkDateTime at hk
  split at hk
  · rename_i hcond
    injection hk with hdt
    exact ⟨hdt.symm, hcond⟩
  · cases hk

theorem dateutilParse_bounds {s : String} {dt : PyDateTime}
    (h : dateutilParse s = some dt) :
    1 ≤ dt.year ∧ dt.year ≤ 9999 ∧ 1 ≤ dt.month ∧ dt.month ≤ 12 ∧
      1 ≤ dt.day ∧ dt.day ≤ 31 ∧ dt.hour ≤ 23 ∧ dt.minute ≤ 59 ∧ dt.second ≤ 59 := by
  unfold dateutilParse at h
  split at h
  · cases h
  · rename_i y mo d hh mi sec heq
    obtain ⟨hdt, hb⟩ := mkDateTime_eq_some h
    subst hdt
    simpa using hb

theorem dtKey_min_le_of_bounds (dt : PyDateTime)
    (hb : 1 ≤ dt.year ∧ dt.year ≤ 9999 ∧ 1 ≤ dt.month ∧ dt.month ≤ 12 ∧
      1 ≤ dt.day ∧ dt.day ≤ 31 ∧ dt.hour ≤ 23 ∧ dt.minute ≤ 59 ∧ dt.second ≤ 59) :
    dtKey datetime_min ≤ dtKey dt ∧
      (dt ≠ datetime_min → dtKey datetime_min < dtKey dt) := by
  obtain ⟨y, mo, d, h, mi, s⟩ := dt
  obtain ⟨h1, h2, h3, h4, h5, h6, h7, h8, h9⟩ := hb
  simp only [dtKey, datetime_min] at *
  constructor
  · omega
  · intro hne
    have hfields : ¬(y = 1 ∧ mo = 1 ∧ d = 1 ∧ h = 0 ∧ mi = 0 ∧ s = 0) := by
      simpa [PyDateTime.mk.injEq] using hne
    omega

/-! ## Claim theorems -/

/-- C1 (counterexample): the claim asserts that
matches("maskinen är trasig", ["mask"]) is false, but the source regex
anchors only at a word-start boundary, and the occurrence of mask at the
very beginning of the text is at such a boundary, so match_keywords
returns true there. -/
theorem C1_maskinen_matches : match_keywords "maskinen är trasig" ["mask"] = true := by
  decide

/-- C1 (amended): the keyword matcher is case-insensitive and anchors
each keyword at a word-start boundary with a free suffix; for keyword
mask: pengamaskin and bitmask do not match (a word character precedes the
occurrence), "this is a mask" matches, and "maskinen är trasig" matches
because the occurrence starts at the beginning of the text. -/
theorem C1_boundary_matching :
    match_keywords "pengamaskin" ["mask"] = false ∧
    match_keywords "maskinen är trasig" ["mask"] = true ∧
    match_keywords "this is a mask" ["mask"] = true ∧
    match_keywords "bitmask" ["mask"] = false ∧
    match_keywords "cyberhoten är verkliga" ["cyberhot"] = true ∧
    match_keywords "RANSOMWARE attack" ["ransomware"] = true := by
  decide

/-- C3: parse_timestamp is total (it is a function, never an error); on
absent input, empty input or any unparsable input it returns the
datetime_min sentinel, and every successfully parsed timestamp has a key
at least the sentinel key, strictly greater whenever the parsed value is
a real timestamp, that is, differs from the minimum representable
instant; in particular the sentinel is strictly below the parse of
2020-01-01T00:00:00Z. -/
theorem C3_parse_timestamp_sentinel :
    parse_timestamp none = datetime_min ∧
    parse_timestamp (some "") = datetime_min ∧
    (∀ s : String, dateutilParse s = none → parse_timestamp (some s) = datetime_min) ∧
    (∀ (s : String) (dt : PyDateTime), dateutilParse s = some dt →
      dtKey datetime_min ≤ dtKey dt ∧
        (dt ≠ datetime_min → dtKey datetime_min < dtKey dt)) ∧
    dtKey datetime_min < dtKey (parse_timestamp (some "2020-01-01T00:00:00Z")) := by
  refine ⟨rfl, rfl, ?_, ?_, by decide⟩
  · intro s h
    have hdef : parse_timestamp (some s) =
        if s = "" then datetime_min else (dateutilParse s).getD datetime_min := rfl
    rw [hdef, h]
    split <;> rfl
  · intro s dt h
    exact dtKey_min_le_of_bounds dt (dateutilParse_bounds h)

/-- C3 (witness): the sentinel branch and the strict comparison, at the
concrete inputs of the spec. -/
theorem C3_parse_timestamp_sentinel_witness :
    parse_timestamp (some "invalid timestamp") = datetime_min ∧
    (dtKey datetime_min ≤ dtKey ⟨2020, 1, 1, 0, 0, 0⟩ ∧
      ((⟨2020, 1, 1, 0, 0, 0⟩ : PyDateTime) ≠ datetime_min →
        dtKey datetime_min < dtKey ⟨2020, 1, 1, 0, 0, 0⟩)) :=
  ⟨C3_parse_timestamp_sentinel.2.2.1 "invalid timestamp" (by decide),
   C3_parse_timestamp_sentinel.2.2.2.1 "2020-01-01T00:00:00Z" ⟨2020, 1, 1, 0, 0, 0⟩
     (by decide)⟩

/-- C5 (failing input): with keywords ["data breach", "high"] on the text
"data breach", the first pass replaces the whole text by the placeholder
token, the keyword high then matches inside the placeholder text
HIGHLIGHT_0 (word-start boundary after the NUL byte, free suffix), and
the final output carries a marked span whose inner text HIGHLIGHT_0 is
not a substring of the original input, contradicting the byte-identity
guarantee; the collision-free concrete example of the claim is also
evaluated. -/
theorem C5_highlight_placeholder_collision :
    highlight_keywords "data breach" ["data breach", "high"] =
      "\x00<mark class=\"highlight\">HIGHLIGHT_0</mark>\x00" ∧
    ¬ ("HIGHLIGHT_0".data <:+: "data breach".data) ∧
    highlight_keywords "data breach" ["data breach", "breach"] =
      "<mark class=\"highlight\">data breach</mark>" := by
  decide

/-- C6: both fetcher variants cap their output at 50 records; the records
produced are exactly those of the first 50 items in document order, and
items past the first 50 contribute nothing. -/
theorem C6_per_source_cap :
    (∀ (m : SiteMeta) (f : FetchResult RssItem), (scrape_rss_feed m f).length ≤ 50) ∧
    (∀ (m : SiteMeta) (items : List RssItem),
      scrape_rss_feed m (.ok items) = scrape_rss_feed m (.ok (items.take 50))) ∧
    (∀ (m : SiteMeta) (items extra : List RssItem), 50 ≤ items.length →
      scrape_rss_feed m (.ok (items ++ extra)) = scrape_rss_feed m (.ok items)) ∧
    (∀ (m : SiteMeta) (sel : HtmlSelectors) (f : FetchResult HtmlItem),
      (scrape_html_site m sel f).length ≤ 50) ∧
    (∀ (m : SiteMeta) (sel : HtmlSelectors) (items : List HtmlItem),
      scrape_html_site m sel (.ok items) = scrape_html_site m sel (.ok (items.take 50))) ∧
    (∀ (m : SiteMeta) (sel : HtmlSelectors) (items extra : List HtmlItem),
      50 ≤ items.length →
      scrape_html_site m sel (.ok (items ++ extra)) = scrape_html_site m sel (.ok items)) := by
  refine ⟨?_, ?_, ?_, ?_, ?_, ?_⟩
  · intro m f
    cases f with
    | failed => simp [scrape_rss_feed]
    | ok items =>
      exact Nat.le_trans (List.length_filterMap_le _ _) (List.length_take_le _ _)
  · intro m items
    simp [scrape_rss_feed, List.take_take]
  · intro m items extra h
    simp [scrape_rss_feed, List.take_append_of_le_length h]
  · intro m sel f
    cases f with
    | failed => simp [scrape_html_site]
    | ok items =>
      exact Nat.le_trans (List.length_filterMap_le _ _) (List.length_take_le _ _)
  · intro m sel items
    simp [scrape_html_site, List.take_take]
  · intro m sel items extra h
    simp [scrape_html_site, List.take_append_of_le_length h]

/-- C6 (witness): the excess-item clause at a concrete 50-item feed with
one extra item, for both variants. -/
theorem C6_per_source_cap_witness :
    scrape_rss_feed ⟨"S", "https://s.example", none⟩
        (.ok (List.replicate 50 ([] : RssItem) ++ [[]])) =
      scrape_rss_feed ⟨"S", "https://s.example", none⟩
        (.ok (List.replicate 50 ([] : RssItem))) ∧
    scrape_html_site ⟨"S", "https://s.example", none⟩ ⟨false, ""⟩
        (.ok (List.replicate 50 (⟨none, none, none⟩ : HtmlItem) ++ [⟨none, none, none⟩])) =
      scrape_html_site ⟨"S", "https://s.example", none⟩ ⟨false, ""⟩
        (.ok (List.replicate 50 (⟨none, none, none⟩ : HtmlItem))) :=
  ⟨C6_per_source_cap.2.2.1 ⟨"S", "https://s.example", none⟩
      (List.replicate 50 ([] : RssItem)) [[]] (by simp),
   C6_per_source_cap.2.2.2.2.2 ⟨"S", "https://s.example", none⟩ ⟨false, ""⟩
      (List.replicate 50 (⟨none, none, none⟩ : HtmlItem)) [⟨none, none, none⟩] (by simp)⟩

/-- C9: when the pipeline run raises, the refresh route returns the
structured error payload and the cache pair is left exactly as it was;
when it succeeds, the article list and the last-update time are replaced
together. -/
theorem C9_refresh_failure_preserves_cache :
    (∀ (st : CacheState) (now : Nat) (e : String),
      refresh (.error e) now st = (st, .error e)) ∧
    (∀ (st : CacheState) (now : Nat) (arts : List Article),
      refresh (.ok arts) now st =
        ({ articles_cache := arts, last_update := some now }, .success arts.length)) := by
  exact ⟨fun _ _ _ => rfl, fun _ _ _ => rfl⟩

/-- C2 (counterexample): the HTML variant checks only that the title and
link elements exist; a title element whose text is empty and a link
element without an href produce a record whose title and link are both
empty, so the non-emptiness invariant fails for the HTML fetcher. -/
theorem C2_html_empty_fields :
    (scrape_html_site ⟨"Site", "https://example.com", none⟩ ⟨false, ""⟩
        (.ok [⟨some ⟨"", none, none⟩, some ⟨"", none, none⟩, none⟩])).map
      (fun a => (a.title, a.link)) = [("", "")] := by
  decide

/-- C2 (amended): every record produced by the RSS/Atom fetcher has a
non-empty title and link, and an RSS item from which they cannot be
extracted yields no record; the HTML variant guarantees only that the
title and link elements were present in the container, and can surface
records with empty title or link. -/
theorem C2_required_fields :
    (∀ (m : SiteMeta) (f : FetchResult RssItem) (a : RawArticle),
      a ∈ scrape_rss_feed m f → a.title ≠ "" ∧ a.link ≠ "") ∧
    (∀ (m : SiteMeta) (sel : HtmlSelectors) (f : FetchResult HtmlItem) (a : RawArticle),
      a ∈ scrape_html_site m sel f →
        ∃ it : HtmlItem, it.titleElem.isSome ∧ it.linkElem.isSome ∧
          html_item_record m sel it = some a) := by
  constructor
  · intro m f a ha
    cases f with
    | failed => simp [scrape_rss_feed] at ha
    | ok items =>
      simp only [scrape_rss_feed, List.mem_filterMap] at ha
      obtain ⟨item, _, hrec⟩ := ha
      unfold rss_item_record at hrec
      rcases ht : rss_title item with _ | t <;> rcases hl : rss_link item with _ | l <;>
        simp only [ht, hl] at hrec <;>
        try exact Option.noConfusion hrec
      split at hrec
      · rename_i hcond
        injection hrec with ha
        subst ha
        exact ⟨hcond.1, hcond.2⟩
      · cases hrec
  · intro m sel f a ha
    cases f with
    | failed => simp [scrape_html_site] at ha
    | ok items =>
      simp only [scrape_html_site, List.mem_filterMap] at ha
      obtain ⟨it, _, hrec⟩ := ha
      obtain ⟨tEl, lEl, tsEl⟩ := it
      cases tEl with
      | none => simp [html_item_record] at hrec
      | some te =>
        cases lEl with
        | none => simp [html_item_record] at hrec
        | some le => exact ⟨⟨some te, some le, tsEl⟩, rfl, rfl, hrec⟩

/-- C2 (witness): the RSS non-emptiness clause at a concrete one-item feed. -/
theorem C2_required_fields_witness :
    ({ title := "Example title", link := "https://example.com/a",
       origin := "S", origin_url := "https://s.example", timestamp := none,
       category := "international", ingress := some "",
       ingress_selector := "" } : RawArticle).title ≠ "" ∧
    ({ title := "Example title", link := "https://example.com/a",
       origin := "S", origin_url := "https://s.example", timestamp := none,
       category := "international", ingress := some "",
       ingress_selector := "" } : RawArticle).link ≠ "" :=
  C2_required_fields.1 ⟨"S", "https://s.example", none⟩
    (.ok [[⟨"title", none, "Example title", none⟩,
           ⟨"link", some "https://example.com/a", "", none⟩]])
    _ (by decide)

/-- C7: a failed fetch or parse is contained inside the fetcher, which
returns the empty record list instead of propagating (the embedded
fetchers are total functions); a site whose fetch failed contributes
zero records, and removing it from the configuration leaves the final
aggregated list unchanged, so every other site's records still appear. -/
theorem C7_fail_soft_containment :
    (∀ m : SiteMeta, scrape_site ⟨m, .rss .failed⟩ = []) ∧
    (∀ (m : SiteMeta) (sel : HtmlSelectors), scrape_site ⟨m, .html sel .failed⟩ = []) ∧
    (∀ (fetchIngress : String → String → String) (kws apts : List String)
        (pre post : List Site) (s : Site), scrape_site s = [] →
      scrape_all_sites fetchIngress kws apts (pre ++ s :: post) =
        scrape_all_sites fetchIngress kws apts (pre ++ post)) := by
  refine ⟨fun _ => rfl, fun _ _ => rfl, ?_⟩
  intro fi kws apts pre post s hs
  unfold scrape_all_sites pre_sort_list
  rw [List.map_append, List.map_cons, hs, List.map_append]
  simp

/-- C7 (witness): one failed RSS source next to one healthy RSS source;
the aggregate equals the aggregate of the healthy source alone. -/
theorem C7_fail_soft_containment_witness :
    scrape_all_sites (fun _ _ => "") ["ransomware"] []
        ([] ++ (⟨⟨"F", "https://f.example", none⟩, .rss .failed⟩ : Site) ::
          [⟨⟨"S", "https://s.example", none⟩, .rss (.ok [])⟩]) =
      scrape_all_sites (fun _ _ => "") ["ransomware"] []
        ([] ++ [⟨⟨"S", "https://s.example", none⟩, .rss (.ok [])⟩]) :=
  C7_fail_soft_containment.2.2 (fun _ _ => "") ["ransomware"] [] []
    [⟨⟨"S", "https://s.example", none⟩, .rss (.ok [])⟩]
    ⟨⟨"F", "https://f.example", none⟩, .rss .failed⟩ rfl

/-- C4: the aggregation pipeline sorts the retained list by normalized
timestamp descending with a stable sort: the output is a permutation of
the pre-sort working list, it is pairwise ordered newest first, and any
two records with equal normalized timestamps (including both-sentinel)
keep their pre-sort relative order. -/
theorem C4_stable_sort_newest_first :
    ∀ (fetchIngress : String → String → String) (kws apts : List String)
      (sites : List Site),
      List.Perm (scrape_all_sites fetchIngress kws apts sites)
          (pre_sort_list fetchIngress kws apts sites) ∧
      (scrape_all_sites fetchIngress kws apts sites).Pairwise
        (fun a b => article_sort_key b ≤ article_sort_key a) ∧
      (∀ a b : Article, article_sort_key a = article_sort_key b →
        List.Sublist [a, b] (pre_sort_list fetchIngress kws apts sites) →
        List.Sublist [a, b] (scrape_all_sites fetchIngress kws apts sites)) := by
  intro fi kws apts sites
  have htrans : ∀ a b c : Article, newest_first a b → newest_first b c → newest_first a c := by
    intro a b c hab hbc
    simp only [newest_first, decide_eq_true_eq] at *
    omega
  have htotal : ∀ a b : Article, newest_first a b || newest_first b a := by
    intro a b
    simp only [newest_first, Bool.or_eq_true, decide_eq_true_eq]
    omega
  refine ⟨List.mergeSort_perm _ _, ?_, ?_⟩
  · have h := List.sorted_mergeSort htrans htotal (pre_sort_list fi kws apts sites)
    exact h.imp fun hab => by simpa [newest_first, decide_eq_true_eq] using hab
  · intro a b hk hsub
    exact List.pair_sublist_mergeSort htrans htotal
      (by simp only [newest_first, decide_eq_true_eq]; omega) hsub

/-- C4 (witness): two records from the same feed, both lacking any
timestamp (so both normalize to the sentinel), stay in document order in
the aggregated output. -/
theorem C4_stable_sort_newest_first_witness :
    List.Sublist
      [({ title := "ransomware one", link := "https://s.example/1", origin := "S",
          origin_url := "https://s.example", timestamp := none,
          category := "international", ingress := "", ingress_selector := "",
          summary := "ransomware one", is_apt := none,
          is_swedish_reference := none } : Article),
       ({ title := "ransomware two", link := "https://s.example/2", origin := "S",
          origin_url := "https://s.example", timestamp := none,
          category := "international", ingress := "", ingress_selector := "",
          summary := "ransomware two", is_apt := none,
          is_swedish_reference := none } : Article)]
      (scrape_all_sites (fun _ _ => "") ["ransomware"] []
        [⟨⟨"S", "https://s.example", none⟩, .rss (.ok
          [[⟨"title", none, "ransomware one", none⟩,
            ⟨"link", some "https://s.example/1", "", none⟩],
           [⟨"title", none, "ransomware two", none⟩,
            ⟨"link", some "https://s.example/2", "", none⟩]])⟩]) :=
  (C4_stable_sort_newest_first (fun _ _ => "") ["ransomware"] []
      [⟨⟨"S", "https://s.example", none⟩, .rss (.ok
        [[⟨"title", none, "ransomware one", none⟩,
          ⟨"link", some "https://s.example/1", "", none⟩],
         [⟨"title", none, "ransomware two", none⟩,
          ⟨"link", some "https://s.example/2", "", none⟩]])⟩]).2.2 _ _
    (by decide)
    (by
      rw [show pre_sort_list (fun _ _ => "") ["ransomware"] []
          [⟨⟨"S", "https://s.example", none⟩, .rss (.ok
            [[⟨"title", none, "ransomware one", none⟩,
              ⟨"link", some "https://s.example/1", "", none⟩],
             [⟨"title", none, "ransomware two", none⟩,
              ⟨"link", some "https://s.example/2", "", none⟩]])⟩] =
          [{ title := "ransomware one", link := "https://s.example/1", origin := "S",
             origin_url := "https://s.example", timestamp := none,
             category := "international", ingress := "", ingress_selector := "",
             summary := "ransomware one", is_apt := none, is_swedish_reference := none },
           { title := "ransomware two", link := "https://s.example/2", origin := "S",
             origin_url := "https://s.example", timestamp := none,
             category := "international", ingress := "", ingress_selector := "",
             summary := "ransomware two", is_apt := none, is_swedish_reference := none }]
        from by decide])

/-- C10: a record in the pipeline output carries the is_apt key exactly
when its classification text matched the APT keyword set, and the
is_swedish_reference key exactly when the Swedish-indicator detection
matched; on a non-match the key is absent (none), never present with
value false. -/
theorem C10_flags_absent_unless_matched :
    ∀ (fetchIngress : String → String → String) (kws apts : List String)
      (sites : List Site) (a : Article),
      a ∈ scrape_all_sites fetchIngress kws apts sites →
      a.is_apt =
        (if match_keywords (pyLower (a.title ++ " " ++ a.ingress)) apts then some true
         else none) ∧
      a.is_swedish_reference =
        (if detect_swedish_reference (a.title ++ " " ++ a.ingress) then some true
         else none) := by
  intro fi kws apts sites a ha
  unfold scrape_all_sites at ha
  rw [List.mem_mergeSort] at ha
  unfold pre_sort_list at ha
  rw [List.mem_filterMap] at ha
  obtain ⟨raw, _, hcl⟩ := ha
  simp only [classify_article] at hcl
  split at hcl
  · injection hcl with h
    subst h
    exact ⟨rfl, rfl⟩
  · cases hcl

/-- C10 (witness): the concrete one-source pipeline output record has its
Swedish flag present and its APT key absent, as the theorem prescribes. -/
theorem C10_flags_absent_unless_matched_witness :
    ({ title := "Ransomware hits Swedish hospital", link := "https://example.com/article",
       origin := "Test Site", origin_url := "https://example.com",
       timestamp := some "Mon, 27 Nov 2025 10:30:00 GMT", category := "international",
       ingress := "", ingress_selector := "",
       summary := "Ransomware hits Swedish hospital",
       is_apt := none, is_swedish_reference := some true } : Article).is_apt =
      (if match_keywords
          (pyLower ("Ransomware hits Swedish hospital" ++ " " ++ "")) [] then some true
       else none) ∧
    ({ title := "Ransomware hits Swedish hospital", link := "https://example.com/article",
       origin := "Test Site", origin_url := "https://example.com",
       timestamp := some "Mon, 27 Nov 2025 10:30:00 GMT", category := "international",
       ingress := "", ingress_selector := "",
       summary := "Ransomware hits Swedish hospital",
       is_apt := none, is_swedish_reference := some true } : Article).is_swedish_reference =
      (if detect_swedish_reference ("Ransomware hits Swedish hospital" ++ " " ++ "") then
        some true
       else none) :=
  C10_flags_absent_unless_matched (fun _ _ => "") ["ransomware"] []
    [⟨⟨"Test Site", "https://example.com", none⟩, .rss (.ok
      [[⟨"title", none, "Ransomware hits Swedish hospital", none⟩,
        ⟨"link", some "https://example.com/article", "", none⟩,
        ⟨"pubDate", none, "Mon, 27 Nov 2025 10:30:00 GMT", none⟩]])⟩] _
    (by
      unfold scrape_all_sites
      rw [show pre_sort_list (fun _ _ => "") ["ransomware"] []
          [⟨⟨"Test Site", "https://example.com", none⟩, .rss (.ok
            [[⟨"title", none, "Ransomware hits Swedish hospital", none⟩,
              ⟨"link", some "https://example.com/article", "", none⟩,
              ⟨"pubDate", none, "Mon, 27 Nov 2025 10:30:00 GMT", none⟩]])⟩] =
          [{ title := "Ransomware hits Swedish hospital",
             link := "https://example.com/article",
             origin := "Test Site", origin_url := "https://example.com",
             timestamp := some "Mon, 27 Nov 2025 10:30:00 GMT",
             category := "international", ingress := "", ingress_selector := "",
             summary := "Ransomware hits Swedish hospital",
             is_apt := none, is_swedish_reference := some true }]
        from by decide]
      rw [List.mergeSort_singleton]
      exact List.mem_singleton.mpr rfl)

/-- C8: one RSS source with one item titled Ransomware hits Swedish
hospital and pubDate Mon, 27 Nov 2025 10:30:00 GMT, a general keyword
list containing ransomware and an APT keyword list not matching the
classification text, yields exactly one record; its APT key is absent
(read as false), its Swedish-reference flag is set, and its normalized
timestamp is 2025-11-27T10:30:00. -/
theorem C8_end_to_end_scenario (fetchIngress : String → String → String)
    (kws apts : List String) (hk : "ransomware" ∈ kws)
    (ha : match_keywords (pyLower ("Ransomware hits Swedish hospital" ++ " " ++ "")) apts
      = false) :
    scrape_all_sites fetchIngress kws apts
        [⟨⟨"Test Site", "https://example.com", none⟩, .rss (.ok
          [[⟨"title", none, "Ransomware hits Swedish hospital", none⟩,
            ⟨"link", some "https://example.com/article", "", none⟩,
            ⟨"pubDate", none, "Mon, 27 Nov 2025 10:30:00 GMT", none⟩]])⟩] =
      [{ title := "Ransomware hits Swedish hospital",
         link := "https://example.com/article",
         origin := "Test Site", origin_url := "https://example.com",
         timestamp := some "Mon, 27 Nov 2025 10:30:00 GMT",
         category := "international", ingress := "", ingress_selector := "",
         summary := "Ransomware hits Swedish hospital",
         is_apt := none, is_swedish_reference := some true }] ∧
    (none : Option Bool).getD false = false ∧
    (some true : Option Bool).getD false = true ∧
    parse_timestamp (some "Mon, 27 Nov 2025 10:30:00 GMT") = ⟨2025, 11, 27, 10, 30, 0⟩ := by
  have hmatch : match_keywords ("Ransomware hits Swedish hospital" ++ " " ++ "") kws
      = true := by
    unfold match_keywords
    rw [List.any_eq_true]
    exact ⟨"ransomware", hk, by decide⟩
  have hclass : classify_article fetchIngress kws apts
      { title := "Ransomware hits Swedish hospital",
        link := "https://example.com/article",
        origin := "Test Site", origin_url := "https://example.com",
        timestamp := some "Mon, 27 Nov 2025 10:30:00 GMT",
        category := "international", ingress := some "", ingress_selector := "" } =
      some { title := "Ransomware hits Swedish hospital",
             link := "https://example.com/article",
             origin := "Test Site", origin_url := "https://example.com",
             timestamp := some "Mon, 27 Nov 2025 10:30:00 GMT",
             category := "international", ingress := "", ingress_selector := "",
             summary := "Ransomware hits Swedish hospital",
             is_apt := none, is_swedish_reference := some true } := by
    have hstep : classify_article fetchIngress kws apts
        { title := "Ransomware hits Swedish hospital",
          link := "https://example.com/article",
          origin := "Test Site", origin_url := "https://example.com",
          timestamp := some "Mon, 27 Nov 2025 10:30:00 GMT",
          category := "international", ingress := some "", ingress_selector := "" } =
        (if match_keywords ("Ransomware hits Swedish hospital" ++ " " ++ "") kws = true
         then some ({ title := "Ransomware hits Swedish hospital",
                      link := "https://example.com/article",
                      origin := "Test Site", origin_url := "https://example.com",
                      timestamp := some "Mon, 27 Nov 2025 10:30:00 GMT",
                      category := "international", ingress := "", ingress_selector := "",
                      summary := generate_summary "Ransomware hits Swedish hospital" 150,
                      is_apt :=
                        if match_keywords
                            (pyLower ("Ransomware hits Swedish hospital" ++ " " ++ ""))
                            apts = true then some true
                        else none,
                      is_swedish_reference :=
                        if detect_swedish_reference
                            ("Ransomware hits Swedish hospital" ++ " " ++ "") = true then
                          some true
                        else none } : Article)
         else none) := rfl
    rw [hstep, hmatch, ha]
    decide
  refine ⟨?_, rfl, rfl, by decide⟩
  unfold scrape_all_sites
  have hpre : pre_sort_list fetchIngress kws apts
      [⟨⟨"Test Site", "https://example.com", none⟩, .rss (.ok
        [[⟨"title", none, "Ransomware hits Swedish hospital", none⟩,
          ⟨"link", some "https://example.com/article", "", none⟩,
          ⟨"pubDate", none, "Mon, 27 Nov 2025 10:30:00 GMT", none⟩]])⟩] =
      [{ title := "Ransomware hits Swedish hospital",
         link := "https://example.com/article",
         origin := "Test Site", origin_url := "https://example.com",
         timestamp := some "Mon, 27 Nov 2025 10:30:00 GMT",
         category := "international", ingress := "", ingress_selector := "",
         summary := "Ransomware hits Swedish hospital",
         is_apt := none, is_swedish_reference := some true }] := by
    unfold pre_sort_list
    rw [show ((List.map scrape_site
        [⟨⟨"Test Site", "https://example.com", none⟩, .rss (.ok
          [[⟨"title", none, "Ransomware hits Swedish hospital", none⟩,
            ⟨"link", some "https://example.com/article", "", none⟩,
            ⟨"pubDate", none, "Mon, 27 Nov 2025 10:30:00 GMT", none⟩]])⟩]).flatten) =
        [{ title := "Ransomware hits Swedish hospital",
           link := "https://example.com/article",
           origin := "Test Site", origin_url := "https://example.com",
           timestamp := some "Mon, 27 Nov 2025 10:30:00 GMT",
           category := "international", ingress := some "",
           ingress_selector := "" }] from by decide]
    simp [List.filterMap_cons, hclass]
  rw [hpre, List.mergeSort_singleton]

/-- C8 (witness): the scenario with the concrete keyword lists
[ransomware] and the empty APT list. -/
theorem C8_end_to_end_scenario_witness :
    scrape_all_sites (fun _ _ => "") ["ransomware"] []
        [⟨⟨"Test Site", "https://example.com", none⟩, .rss (.ok
          [[⟨"title", none, "Ransomware hits Swedish hospital", none⟩,
            ⟨"link", some "https://example.com/article", "", none⟩,
            ⟨"pubDate", none, "Mon, 27 Nov 2025 10:30:00 GMT", none⟩]])⟩] =
      [{ title := "Ransomware hits Swedish hospital",
         link := "https://example.com/article",
         origin := "Test Site", origin_url := "https://example.com",
         timestamp := some "Mon, 27 Nov 2025 10:30:00 GMT",
         category := "international", ingress := "", ingress_selector := "",
         summary := "Ransomware hits Swedish hospital",
         is_apt := none, is_swedish_reference := some true }] ∧
    (none : Option Bool).getD false = false ∧
    (some true : Option Bool).getD false = true ∧
    parse_timestamp (some "Mon, 27 Nov 2025 10:30:00 GMT") = ⟨2025, 11, 27, 10, 30, 0⟩ :=
  C8_end_to_end_scenario (fun _ _ => "") ["ransomware"] []
    (by simp) (by decide)

end NewsAgg

